import Mathlib

/-!
Verification of the external signer payout service
(`src/external-signer/external-signer-service.js`).

The service polls a Supabase queue for payout rows, submits an XRPL
Payment for each row, and reports status transitions over a webhook.
The JavaScript is effectful and asynchronous; we embed it shallowly:
every external call (webhook POST, XRPL autofill / sign / submitAndWait,
Supabase fetch, websocket connect) is given its outcome by an explicit
environment record, and the embedded functions return the trace of
observable events (webhook posts, ledger steps, counter updates) that
the JavaScript control flow produces under those outcomes.

JavaScript-specific semantics (the `||` operator treating `""` and
`undefined` as falsy, `String(err.message || err)`, `.slice(0, 500)`,
`JSON` fields absent when `undefined`) are modelled explicitly by small
helper functions named after the construct they embed.
-/

namespace ExternalSigner

/-- A payout row as destructured by `processOne`:
`const { id, wallet_address, amount, destination_tag, webhook_secret } = row`.
`destination_tag` is optional (`destination_tag != null` guard in the source). -/
structure Row where
  id : String
  wallet_address : String
  amount : String
  destination_tag : Option Int
  webhook_secret : String
deriving DecidableEq, Repr

/-- A JSON body posted to the webhook URL. `tx_id` and `error_message`
are `none` when the corresponding JSON field is absent (JavaScript
`JSON.stringify` drops `undefined` fields). -/
structure WebhookBody where
  request_id : String
  status : String
  tx_id : Option String
  error_message : Option String
  webhook_secret : String
deriving DecidableEq, Repr

/-- The `tx_json` part of an XRPL submit response: only `hash` is read. -/
structure TxJson where
  hash : Option String
deriving DecidableEq, Repr

/-- The inner `result` object of an XRPL submit response. -/
structure SubmitInner where
  engine_result : Option String
  tx_json : Option TxJson
deriving DecidableEq, Repr

/-- The value resolved by `client.submitAndWait`: the source reads both
`result?.result?.engine_result` and `result?.engine_result` (and the
same two paths for `tx_json?.hash`), so we keep both shapes. -/
structure SubmitResponse where
  result : Option SubmitInner
  engine_result : Option String
  tx_json : Option TxJson
deriving DecidableEq, Repr

/-- JavaScript `a || b` on two string-or-undefined values: `a` wins
unless it is `undefined` (`none`) or the empty string (both falsy). -/
def jsOrStrOpt (a b : Option String) : Option String :=
  match a with
  | some s => if s = "" then b else some s
  | none => b

/-- JavaScript `a || d` where `d` is a plain (truthy) string default. -/
def jsOrDefault (a : Option String) (d : String) : String :=
  match a with
  | some s => if s = "" then d else s
  | none => d

/-- JavaScript `s.slice(0, n)`: the first `n` characters of `s`. -/
def jsSlice (s : String) (n : Nat) : String :=
  ⟨s.data.take n⟩

/-- JavaScript `String(err.message || err)` for an `Error` whose message
is `msg`: the message itself, except that an empty message falls through
to `String(err)`, which prints as `"Error"`. -/
def errString (msg : String) : String :=
  if msg = "" then "Error" else msg

/-- The source's `engine = result?.result?.engine_result || result?.engine_result`. -/
def engineOf (r : SubmitResponse) : Option String :=
  jsOrStrOpt (r.result.bind (fun x => x.engine_result)) r.engine_result

/-- The source's `txHash = result?.result?.tx_json?.hash || result?.tx_json?.hash`. -/
def txHashOf (r : SubmitResponse) : Option String :=
  jsOrStrOpt ((r.result.bind (fun x => x.tx_json)).bind (fun t => t.hash))
    (r.tx_json.bind (fun t => t.hash))

/-- Modelled from the spec: `xrpl.xrpToDrops` of the external `xrpl`
library (not part of this repository) converts an amount denominated in
XRP, given as a decimal string, to the ledger base unit (1 XRP =
1,000,000 drops), returned as a decimal string. The fractional part,
when present, is padded on the right to six digits. -/
def xrpToDrops (s : String) : String :=
  match s.splitOn "." with
  | [w] => toString ((w.toNat?.getD 0) * 1000000)
  | [w, f] =>
      toString ((w.toNat?.getD 0) * 1000000 +
        ((String.mk ((f.data ++ List.replicate 6 '0').take 6)).toNat?.getD 0))
  | _ => "0"

/-- The XRPL Payment transaction object built by `processOne`.
`DestinationTag` is `none` when the spread `...(destination_tag != null ? ... : {})`
adds no field. -/
structure PaymentTx where
  TransactionType : String
  Account : String
  Amount : String
  Destination : String
  DestinationTag : Option Int
deriving DecidableEq, Repr

/-- The `tx` object literal in `processOne`. -/
def buildTx (walletAddress : String) (row : Row) : PaymentTx :=
  { TransactionType := "Payment"
  , Account := walletAddress
  , Amount := xrpToDrops row.amount
  , Destination := row.wallet_address
  , DestinationTag := row.destination_tag }

/-- Observable events of one `processOne` call, in program order:
in-flight counter updates, webhook posts (recorded at the moment the
POST is issued, whether or not it then fails), and the three ledger
steps `client.autofill` (carrying the freshly built transaction),
`wallet.sign`, and `client.submitAndWait`. -/
inductive Event where
  | incr : Event
  | decr : Event
  | webhook : WebhookBody → Event
  | autofill : PaymentTx → Event
  | sign : Event
  | submitAndWait : Event
deriving DecidableEq, Repr

/-- Outcomes the environment hands to one `processOne` call: each
external operation either succeeds (for `submitAndWait`, with a
response) or throws with an error message. -/
structure Env where
  processingWebhook : Except String Unit
  autofillStep : Except String Unit
  signStep : Except String Unit
  submitStep : Except String SubmitResponse
  completedWebhook : Except String Unit
  failedWebhook : Except String Unit
deriving Repr

/-- The `try` block of `processOne`: the events it emits, paired with
`some errMessage` when it throws (caught by the `catch` below) and
`none` when it completes. Mirrors the source line by line: processing
webhook, build tx, autofill, sign, submitAndWait, engine-result check,
completed webhook. -/
def runAttempt (env : Env) (walletAddress : String) (row : Row) :
    List Event × Option String :=
  let procBody : WebhookBody :=
    ⟨row.id, "processing", none, none, row.webhook_secret⟩
  match env.processingWebhook with
  | .error e => ([Event.webhook procBody], some e)
  | .ok _ =>
    let tx := buildTx walletAddress row
    match env.autofillStep with
    | .error e => ([Event.webhook procBody, Event.autofill tx], some e)
    | .ok _ =>
      match env.signStep with
      | .error e =>
          ([Event.webhook procBody, Event.autofill tx, Event.sign], some e)
      | .ok _ =>
        match env.submitStep with
        | .error e =>
            ([Event.webhook procBody, Event.autofill tx, Event.sign,
              Event.submitAndWait], some e)
        | .ok resp =>
          let base := [Event.webhook procBody, Event.autofill tx, Event.sign,
            Event.submitAndWait]
          if engineOf resp ≠ some "tesSUCCESS" then
            (base, some ("Engine result: " ++ jsOrDefault (engineOf resp) "unknown"))
          else
            let compBody : WebhookBody :=
              ⟨row.id, "completed", txHashOf resp, none, row.webhook_secret⟩
            match env.completedWebhook with
            | .error e => (base ++ [Event.webhook compBody], some e)
            | .ok _ => (base ++ [Event.webhook compBody], none)

/-- The whole of `processOne(row)`: `inFlight++`, the `try` block, the `catch` that
posts a best-effort "failed" webhook (its own failure is only logged:
both outcomes of `env.failedWebhook` produce the same trace and
nothing escapes), and the `finally` that runs `inFlight--`. The second
component is what `processOne` itself returns to its caller: `.ok ()`
when no exception escapes. -/
def processOne (env : Env) (walletAddress : String) (row : Row) :
    List Event × Except String Unit :=
  match runAttempt env walletAddress row with
  | (evs, none) => (Event.incr :: evs ++ [Event.decr], Except.ok ())
  | (evs, some err) =>
    let failBody : WebhookBody :=
      ⟨row.id, "failed", none, some (jsSlice (errString err) 500),
        row.webhook_secret⟩
    let reportEvs : List Event :=
      match env.failedWebhook with
      | .ok _ => [Event.webhook failBody]
      | .error _ => [Event.webhook failBody]
    (Event.incr :: (evs ++ reportEvs) ++ [Event.decr], Except.ok ())

/-- The webhook bodies posted during a trace, in order. -/
def webhookEvents (tr : List Event) : List WebhookBody :=
  tr.filterMap (fun e => match e with | Event.webhook b => some b | _ => none)

/-- Selects webhook bodies carrying a given status string. -/
def isStatus (s : String) (b : WebhookBody) : Bool :=
  b.status == s

/-- Whether an event touches the in-flight counter. -/
def isCounterEvent : Event → Bool
  | Event.incr => true
  | Event.decr => true
  | _ => false

/-- Whether an event is one of the ledger steps (transaction build +
autofill, sign, submitAndWait). -/
def isLedgerStep : Event → Bool
  | Event.autofill _ => true
  | Event.sign => true
  | Event.submitAndWait => true
  | _ => false

def isIncr : Event → Bool
  | Event.incr => true
  | _ => false

def isDecr : Event → Bool
  | Event.decr => true
  | _ => false

/-- The effect of one event on the in-flight counter. -/
def applyEvent (n : Int) : Event → Int
  | Event.incr => n + 1
  | Event.decr => n - 1
  | _ => n

/-- Folding a trace over the in-flight counter. -/
def runCounter (n : Int) (tr : List Event) : Int :=
  tr.foldl applyEvent n

/-! ## Endpoint list and connection (`WS_DEFAULTS`, `connectClient`) -/

/-- The endpoint list `WS_DEFAULTS` as evaluated at module load:
`(XRPL_SERVERS?.split(",").map(s => s.trim()).filter(Boolean)) ||
 ([XRPL_SERVER].filter(Boolean)) || [three public endpoints]`.
Environment variables are `Option String` (`none` = unset). A defined
`XRPL_SERVERS` yields an array (truthy even when empty); otherwise
`[XRPL_SERVER].filter(Boolean)` is again an array, always truthy, so
the third operand is unreachable in every case. -/
def wsDefaults (xrplServers xrplServer : Option String) : List String :=
  match xrplServers with
  | some s => ((s.splitOn ",").map (fun t => t.trim)).filter (fun t => t ≠ "")
  | none =>
    match xrplServer with
    | some v => if v = "" then [] else [v]
    | none => []

/-- The connector `connectClient()`: tries the urls in order; `connectOk` says whether
`new xrpl.Client(url); await c.connect()` succeeds for a url. Returns
the urls actually attempted (in order) and either the url whose session
was stored in the process-wide `client`, or the thrown error. -/
def connectClient (connectOk : String → Bool) : List String → List String × Except String String
  | [] => ([], Except.error "No XRPL server reachable")
  | url :: rest =>
    if connectOk url then ([url], Except.ok url)
    else
      let (tried, r) := connectClient connectOk rest
      (url :: tried, r)

/-! ## Queue fetch (`supabaseHeaders`, `fetchQueued`) -/

/-- An HTTP request as issued by `fetch`. -/
structure HttpRequest where
  method : String
  url : String
  headers : List (String × String)
deriving DecidableEq, Repr

/-- The headers built by `supabaseHeaders()`. -/
def supabaseHeaders (serviceRoleKey : String) : List (String × String) :=
  [("apikey", serviceRoleKey),
   ("Authorization", "Bearer " ++ serviceRoleKey),
   ("Content-Type", "application/json")]

/-- The backend's response to the fetch: HTTP status, raw body text
(read by `res.text()` on failure), and the JSON array (read by
`res.json()` on success). -/
structure BackendResponse where
  status : Nat
  body : String
  rows : List Row
deriving Repr

/-- The fetch API's `res.ok`: status in the inclusive range 200–299. -/
def respOk (r : BackendResponse) : Bool :=
  decide (200 ≤ r.status) && decide (r.status ≤ 299)

/-- The fetcher `fetchQueued(limit)`: the single GET request it issues, paired with
its result — the parsed rows on a 2xx response, or the thrown
`Fetch queued failed: <status> <body>` error otherwise. -/
def fetchQueued (supabaseUrl serviceRoleKey : String) (limit : Int)
    (resp : BackendResponse) : HttpRequest × Except String (List Row) :=
  let url := supabaseUrl ++
    "/rest/v1/payout_requests?status=eq.queued&chain=eq.XRP&order=requested_at.asc&limit=" ++
    toString limit
  let req : HttpRequest := ⟨"GET", url, supabaseHeaders serviceRoleKey⟩
  if respOk resp then (req, Except.ok resp.rows)
  else (req, Except.error ("Fetch queued failed: " ++ toString resp.status ++ " " ++ resp.body))

/-! ## Poll loop -/

/-- Inputs to one `pollLoop()` invocation: whether the process-wide
`client` exists and `client.isConnected()`, the outcome of a
`connectClient()` attempt, the outcome of `fetchQueued`, the parsed
`Number(MAX_CONCURRENT)` cap, and the current `inFlight` value. -/
structure PollEnv where
  hasClient : Bool
  clientConnected : Bool
  connect : Except String Unit
  fetch : Except String (List Row)
  cap : Int
  inFlight0 : Int
deriving Repr

/-- Observable outcome of one `pollLoop()` invocation. `dispatched`
lists the rows passed to `processOne` (fire-and-forget: dispatched, not
awaited); `inFlightAfter` is the counter after the synchronous
`inFlight++` of each dispatched call, which is what the loop's
`if (inFlight >= Number(MAX_CONCURRENT)) break` reads. -/
structure PollResult where
  connectAttempted : Bool
  fetchAttempted : Bool
  fetchLimit : Option Int
  dispatched : List Row
  inFlightAfter : Int
deriving Repr

/-- The `for (const row of rows)` dispatch loop: each `processOne(row)`
call synchronously increments `inFlight` before its first await, so the
cap check sees the increments of earlier dispatches. -/
def dispatchLoop (cap : Int) : Int → List Row → List Row × Int
  | n, [] => ([], n)
  | n, r :: rs =>
    if n ≥ cap then ([], n)
    else
      let (ds, n2) := dispatchLoop cap (n + 1) rs
      (r :: ds, n2)

/-- The tail of `pollLoop` after the connection is ensured: the cap
check, the fetch, and the dispatch loop (a thrown fetch error is caught
and logged). -/
def pollAfterConnect (attempted : Bool) (env : PollEnv) : PollResult :=
  if env.inFlight0 ≥ env.cap then ⟨attempted, false, none, [], env.inFlight0⟩
  else
    match env.fetch with
    | .error _ => ⟨attempted, true, some env.cap, [], env.inFlight0⟩
    | .ok rows =>
      let (ds, n2) := dispatchLoop env.cap env.inFlight0 rows
      ⟨attempted, true, some env.cap, ds, n2⟩

/-- The loop body `pollLoop()`: reconnect only if `!client || !client.isConnected()`;
a failed reconnect aborts the cycle (log only). -/
def pollLoop (env : PollEnv) : PollResult :=
  if !env.hasClient || !env.clientConnected then
    match env.connect with
    | .error _ => ⟨true, false, none, [], env.inFlight0⟩
    | .ok _ => pollAfterConnect true env
  else pollAfterConnect false env

/-! ## Control endpoint (`POST /process`) -/

/-- The response of the `POST /process` handler, plus whether
`setTimeout(pollLoop, 50)` was scheduled before responding. -/
structure ProcessReply where
  httpStatus : Nat
  ok : Bool
  started : Bool
  pollScheduled : Bool
deriving DecidableEq, Repr

/-- The `POST /process` handler: `if (CONTROL_BEARER_TOKEN)` (truthy:
set and non-empty) gates on `req.headers.authorization || ""` equalling
the exact string `Bearer <token>`; a mismatch answers 401, otherwise
one poll cycle is scheduled and `{ok: true, started: true}` is sent
immediately, independent of that cycle's outcome. -/
def processHandler (controlToken : Option String) (authHeader : Option String) :
    ProcessReply :=
  match controlToken with
  | some t =>
    if t = "" then ⟨200, true, true, true⟩
    else
      let auth := jsOrDefault authHeader ""
      if auth = "Bearer " ++ t then ⟨200, true, true, true⟩
      else ⟨401, false, false, false⟩
  | none => ⟨200, true, true, true⟩

/-! ## Helper lemmas -/

/-- Truncation is the identity on strings already within the bound. -/
theorem jsSlice_of_le (s : String) (n : Nat) (h : s.length ≤ n) :
    jsSlice s n = s := by
  unfold jsSlice
  rw [List.take_of_length_le h]

/-- An engine-failure message is never the empty string, so
`String(err.message || err)` keeps it unchanged. -/
theorem errString_engineMsg (x : String) :
    errString ("Engine result: " ++ x) = "Engine result: " ++ x := by
  unfold errString
  rw [if_neg]
  intro h
  have hl := congrArg String.length h
  rw [String.length_append] at hl
  have h15 : ("Engine result: " : String).length = 15 := rfl
  have h0 : ("" : String).length = 0 := rfl
  rw [h15, h0] at hl
  omega

/-- The `catch` posts the same trace whether or not the best-effort
failure report itself succeeds: `processOne` collapsed over the
`env.failedWebhook` match. -/
theorem processOne_eq (env : Env) (w : String) (row : Row) :
    processOne env w row =
      match runAttempt env w row with
      | (evs, none) => (Event.incr :: evs ++ [Event.decr], Except.ok ())
      | (evs, some err) =>
          (Event.incr :: (evs ++ [Event.webhook
            ⟨row.id, "failed", none, some (jsSlice (errString err) 500),
              row.webhook_secret⟩]) ++ [Event.decr], Except.ok ()) := by
  unfold processOne
  cases runAttempt env w row with
  | mk evs eo => cases eo <;> cases env.failedWebhook <;> rfl

/-- Every webhook body the `try` block itself posts carries status
"processing" or "completed"; "failed" comes only from the `catch`. -/
theorem runAttempt_statuses (env : Env) (w : String) (row : Row) :
    ∀ b ∈ webhookEvents (runAttempt env w row).1,
      b.status = "processing" ∨ b.status = "completed" := by
  obtain ⟨pw, af, sg, sb, cw, fw⟩ := env
  cases pw <;> cases af <;> cases sg <;> cases sb <;> cases cw <;>
    simp [runAttempt, webhookEvents] <;>
    split <;> simp [webhookEvents] <;>
    exact fun b =>
      ⟨fun hb => Or.inl (by rw [← hb]), fun hb => Or.inr (by rw [← hb])⟩

/-- The `try` block never touches the in-flight counter. -/
theorem runAttempt_no_counter (env : Env) (w : String) (row : Row) :
    ((runAttempt env w row).1).all (fun e => !isCounterEvent e) = true := by
  obtain ⟨pw, af, sg, sb, cw, fw⟩ := env
  cases pw <;> cases af <;> cases sg <;> cases sb <;> cases cw <;>
    simp [runAttempt, isCounterEvent] <;>
    split <;> simp [isCounterEvent]

/-- A truncated string never exceeds the truncation bound. -/
theorem jsSlice_length_le (s : String) (n : Nat) : (jsSlice s n).length ≤ n := by
  have h : (jsSlice s n).length = (s.data.take n).length := rfl
  rw [h, List.length_take]
  exact min_le_left _ _

/-- Counter-neutral events leave the folded counter unchanged. -/
theorem runCounter_of_no_counter (l : List Event)
    (h : l.all (fun e => !isCounterEvent e) = true) :
    ∀ n : Int, runCounter n l = n := by
  induction l with
  | nil => intro n; rfl
  | cons e t ih =>
    intro n
    rw [List.all_cons] at h
    have he : (!isCounterEvent e) = true := by
      cases hb : !isCounterEvent e
      · rw [hb] at h; simp at h
      · rfl
    have ht : t.all (fun e => !isCounterEvent e) = true := by
      rw [he] at h; simpa using h
    have happ : applyEvent n e = n := by
      cases e <;> simp [isCounterEvent] at he <;> rfl
    have : runCounter n (e :: t) = runCounter (applyEvent n e) t := rfl
    rw [this, happ]
    exact ih ht n

/-- Counter bookkeeping of the canonical trace shape
`incr :: mid ++ [decr]` with a counter-neutral middle. -/
theorem trace_counter_facts (mid : List Event) (n : Int)
    (h : mid.all (fun e => !isCounterEvent e) = true) :
    (Event.incr :: mid ++ [Event.decr]).head? = some Event.incr
  ∧ (Event.incr :: mid ++ [Event.decr]).getLast? = some Event.decr
  ∧ (Event.incr :: mid ++ [Event.decr]).countP isIncr = 1
  ∧ (Event.incr :: mid ++ [Event.decr]).countP isDecr = 1
  ∧ runCounter n (Event.incr :: mid ++ [Event.decr]) = n := by
  have hmemI : ∀ e ∈ mid, ¬(isIncr e = true) := by
    intro e he
    have := (List.all_eq_true.mp h) e he
    cases e <;> simp [isCounterEvent] at this <;> simp [isIncr]
  have hmemD : ∀ e ∈ mid, ¬(isDecr e = true) := by
    intro e he
    have := (List.all_eq_true.mp h) e he
    cases e <;> simp [isCounterEvent] at this <;> simp [isDecr]
  refine ⟨rfl, ?_, ?_, ?_, ?_⟩
  · rw [List.getLast?_concat]
  · simp [List.countP_append, List.countP_cons, isIncr,
      List.countP_eq_zero.mpr hmemI]
  · simp [List.countP_append, List.countP_cons, isDecr,
      List.countP_eq_zero.mpr hmemD]
  · have h1 : runCounter n (Event.incr :: mid ++ [Event.decr]) =
        runCounter (runCounter (n + 1) mid) [Event.decr] := by
      simp [runCounter, applyEvent, List.foldl_append]
    rw [h1, runCounter_of_no_counter mid h (n + 1)]
    simp [runCounter, applyEvent]

/-! ## C1 – C3: the webhook protocol of one payout attempt -/

/-- C1: when the processing webhook, autofill, sign and submitAndWait
all succeed and the submission's engine result is "tesSUCCESS",
`processOne` posts exactly one "processing" webhook followed by exactly
one "completed" webhook carrying the transaction hash as `tx_id`, both
for the row's id and webhook secret, and the transaction handed to
autofill carries the amount converted to drops. -/
theorem c1_success_webhooks (env : Env) (w : String) (row : Row)
    (resp : SubmitResponse)
    (h1 : env.processingWebhook = Except.ok ())
    (h2 : env.autofillStep = Except.ok ())
    (h3 : env.signStep = Except.ok ())
    (h4 : env.submitStep = Except.ok resp)
    (h5 : engineOf resp = some "tesSUCCESS") :
    (webhookEvents (processOne env w row).1).filter (isStatus "processing") =
      [⟨row.id, "processing", none, none, row.webhook_secret⟩]
  ∧ (webhookEvents (processOne env w row).1).filter (isStatus "completed") =
      [⟨row.id, "completed", txHashOf resp, none, row.webhook_secret⟩]
  ∧ (webhookEvents (processOne env w row).1).take 2 =
      [⟨row.id, "processing", none, none, row.webhook_secret⟩,
       ⟨row.id, "completed", txHashOf resp, none, row.webhook_secret⟩]
  ∧ Event.autofill (buildTx w row) ∈ (processOne env w row).1
  ∧ (buildTx w row).Amount = xrpToDrops row.amount := by
  obtain ⟨pw, af, sg, sb, cw, fw⟩ := env
  simp only at h1 h2 h3 h4
  subst h1 h2 h3 h4
  cases cw <;> cases fw <;>
    simp [processOne, runAttempt, webhookEvents, isStatus, h5, buildTx]

/-- C1 witness: the spec's success scenario (row r1, hash ABC123). -/
theorem c1_success_webhooks_witness :
    (webhookEvents (processOne
        ⟨Except.ok (), Except.ok (), Except.ok (),
          Except.ok ⟨some ⟨some "tesSUCCESS", some ⟨some "ABC123"⟩⟩, none, none⟩,
          Except.ok (), Except.ok ()⟩
        "rHOT" ⟨"r1", "rDEST", "10", none, "s1"⟩).1).filter (isStatus "processing") =
      [⟨"r1", "processing", none, none, "s1"⟩]
  ∧ (webhookEvents (processOne
        ⟨Except.ok (), Except.ok (), Except.ok (),
          Except.ok ⟨some ⟨some "tesSUCCESS", some ⟨some "ABC123"⟩⟩, none, none⟩,
          Except.ok (), Except.ok ()⟩
        "rHOT" ⟨"r1", "rDEST", "10", none, "s1"⟩).1).filter (isStatus "completed") =
      [⟨"r1", "completed",
        txHashOf ⟨some ⟨some "tesSUCCESS", some ⟨some "ABC123"⟩⟩, none, none⟩,
        none, "s1"⟩]
  ∧ (webhookEvents (processOne
        ⟨Except.ok (), Except.ok (), Except.ok (),
          Except.ok ⟨some ⟨some "tesSUCCESS", some ⟨some "ABC123"⟩⟩, none, none⟩,
          Except.ok (), Except.ok ()⟩
        "rHOT" ⟨"r1", "rDEST", "10", none, "s1"⟩).1).take 2 =
      [⟨"r1", "processing", none, none, "s1"⟩,
       ⟨"r1", "completed",
        txHashOf ⟨some ⟨some "tesSUCCESS", some ⟨some "ABC123"⟩⟩, none, none⟩,
        none, "s1"⟩]
  ∧ Event.autofill (buildTx "rHOT" ⟨"r1", "rDEST", "10", none, "s1"⟩) ∈
      (processOne
        ⟨Except.ok (), Except.ok (), Except.ok (),
          Except.ok ⟨some ⟨some "tesSUCCESS", some ⟨some "ABC123"⟩⟩, none, none⟩,
          Except.ok (), Except.ok ()⟩
        "rHOT" ⟨"r1", "rDEST", "10", none, "s1"⟩).1
  ∧ (buildTx "rHOT" ⟨"r1", "rDEST", "10", none, "s1"⟩).Amount =
      xrpToDrops "10" :=
  c1_success_webhooks _ "rHOT" ⟨"r1", "rDEST", "10", none, "s1"⟩
    ⟨some ⟨some "tesSUCCESS", some ⟨some "ABC123"⟩⟩, none, none⟩
    rfl rfl rfl rfl (by decide)

/-- C2: when the submission completes but its engine result is not
"tesSUCCESS" (an absent or empty result displays as "unknown"),
`processOne` posts exactly one "processing" webhook and then exactly
one "failed" webhook whose error message is `Engine result: <code>`,
and no "completed" webhook. -/
theorem c2_engine_failure_webhooks (env : Env) (w : String) (row : Row)
    (resp : SubmitResponse)
    (h1 : env.processingWebhook = Except.ok ())
    (h2 : env.autofillStep = Except.ok ())
    (h3 : env.signStep = Except.ok ())
    (h4 : env.submitStep = Except.ok resp)
    (h5 : engineOf resp ≠ some "tesSUCCESS")
    (h6 : ("Engine result: " ++ jsOrDefault (engineOf resp) "unknown").length ≤ 500) :
    webhookEvents (processOne env w row).1 =
      [⟨row.id, "processing", none, none, row.webhook_secret⟩,
       ⟨row.id, "failed", none,
        some ("Engine result: " ++ jsOrDefault (engineOf resp) "unknown"),
        row.webhook_secret⟩] := by
  obtain ⟨pw, af, sg, sb, cw, fw⟩ := env
  simp only at h1 h2 h3 h4
  subst h1 h2 h3 h4
  cases fw <;>
    simp [processOne, runAttempt, webhookEvents, if_pos h5,
      errString_engineMsg, jsSlice_of_le _ _ h6]

/-- C2 witness: the spec's failure scenario (tecUNFUNDED_PAYMENT). -/
theorem c2_engine_failure_webhooks_witness :
    webhookEvents (processOne
        ⟨Except.ok (), Except.ok (), Except.ok (),
          Except.ok ⟨some ⟨some "tecUNFUNDED_PAYMENT", none⟩, none, none⟩,
          Except.ok (), Except.ok ()⟩
        "rHOT" ⟨"r1", "rDEST", "10", none, "s1"⟩).1 =
      [⟨"r1", "processing", none, none, "s1"⟩,
       ⟨"r1", "failed", none,
        some ("Engine result: " ++
          jsOrDefault (engineOf ⟨some ⟨some "tecUNFUNDED_PAYMENT", none⟩, none, none⟩)
            "unknown"),
        "s1"⟩] :=
  c2_engine_failure_webhooks _ "rHOT" ⟨"r1", "rDEST", "10", none, "s1"⟩
    ⟨some ⟨some "tecUNFUNDED_PAYMENT", none⟩, none, none⟩
    rfl rfl rfl rfl (by decide) (by decide)

/-- C3: when the initial "processing" webhook post throws, `processOne`
reaches none of the ledger steps (transaction build + autofill, sign,
submitAndWait) and posts no "completed" webhook: the attempt is
aborted. -/
theorem c3_processing_failure_aborts (env : Env) (w : String) (row : Row)
    (e : String)
    (h : env.processingWebhook = Except.error e) :
    ((processOne env w row).1).all (fun ev => !isLedgerStep ev) = true
  ∧ (webhookEvents (processOne env w row).1).filter (isStatus "completed") = [] := by
  obtain ⟨pw, af, sg, sb, cw, fw⟩ := env
  simp only at h
  subst h
  cases fw <;>
    simp [processOne, runAttempt, webhookEvents, isStatus, isLedgerStep]

/-- C3 witness: a concrete processing-webhook failure. -/
theorem c3_processing_failure_aborts_witness :
    ((processOne
        ⟨Except.error "Webhook failed: 500 oops", Except.ok (), Except.ok (),
          Except.ok ⟨none, none, none⟩, Except.ok (), Except.ok ()⟩
        "rHOT" ⟨"r1", "rDEST", "10", none, "s1"⟩).1).all
      (fun ev => !isLedgerStep ev) = true
  ∧ (webhookEvents (processOne
        ⟨Except.error "Webhook failed: 500 oops", Except.ok (), Except.ok (),
          Except.ok ⟨none, none, none⟩, Except.ok (), Except.ok ()⟩
        "rHOT" ⟨"r1", "rDEST", "10", none, "s1"⟩).1).filter (isStatus "completed") =
      [] :=
  c3_processing_failure_aborts _ "rHOT" ⟨"r1", "rDEST", "10", none, "s1"⟩
    "Webhook failed: 500 oops" rfl

/-! ## C4 – C5: containment and counter bookkeeping -/

/-- C4: `processOne` returns normally to its caller whatever the
outcome of any step (its `catch` swallows the attempt's error and the
inner `try` swallows a failure of the "failed" report itself); every
"failed" report carries an error message of at most 500 characters,
namely the thrown error's message truncated to 500; and no "failed"
report is posted when the attempt succeeds. -/
theorem c4_terminal_report_best_effort (env : Env) (w : String) (row : Row) :
    (processOne env w row).2 = Except.ok ()
  ∧ (∀ b ∈ webhookEvents (processOne env w row).1, b.status = "failed" →
      ∃ s, b.error_message = some s ∧ s.length ≤ 500)
  ∧ (∀ err, (runAttempt env w row).2 = some err →
      (webhookEvents (processOne env w row).1).filter (isStatus "failed") =
        [⟨row.id, "failed", none, some (jsSlice (errString err) 500),
          row.webhook_secret⟩])
  ∧ ((runAttempt env w row).2 = none →
      (webhookEvents (processOne env w row).1).filter (isStatus "failed") = []) := by
  have hst := runAttempt_statuses env w row
  rw [processOne_eq]
  cases hra : runAttempt env w row with
  | mk evs eo =>
    rw [hra] at hst
    cases eo with
    | none =>
      have htr : webhookEvents ((Event.incr :: evs) ++ [Event.decr]) =
          webhookEvents evs := by
        simp [webhookEvents]
      refine ⟨rfl, ?_, ?_, ?_⟩
      · intro b hb hfail
        rw [htr] at hb
        rcases hst b hb with h1 | h1 <;> rw [hfail] at h1 <;> exact absurd h1 (by decide)
      · intro err herr
        exact absurd herr (by simp)
      · intro _
        rw [htr, List.filter_eq_nil_iff]
        intro b hb
        rcases hst b hb with h1 | h1 <;> simp [isStatus, h1]
    | some err =>
      have htr : webhookEvents ((Event.incr :: (evs ++ [Event.webhook
          ⟨row.id, "failed", none, some (jsSlice (errString err) 500),
            row.webhook_secret⟩])) ++ [Event.decr]) =
          webhookEvents evs ++
            [⟨row.id, "failed", none, some (jsSlice (errString err) 500),
              row.webhook_secret⟩] := by
        simp [webhookEvents]
      have hnf : (webhookEvents evs).filter (isStatus "failed") = [] := by
        rw [List.filter_eq_nil_iff]
        intro b hb
        rcases hst b hb with h1 | h1 <;> simp [isStatus, h1]
      refine ⟨rfl, ?_, ?_, ?_⟩
      · intro b hb hfail
        rw [htr] at hb
        rcases List.mem_append.mp hb with hb2 | hb2
        · rcases hst b hb2 with h1 | h1 <;> rw [hfail] at h1 <;>
            exact absurd h1 (by decide)
        · have hbe : b = ⟨row.id, "failed", none,
              some (jsSlice (errString err) 500), row.webhook_secret⟩ := by
            simpa using hb2
          subst hbe
          exact ⟨_, rfl, jsSlice_length_le _ _⟩
      · intro err2 herr
        have he : err = err2 := by simpa using herr
        subst he
        rw [htr, List.filter_append, hnf]
        simp [isStatus]
      · intro h0
        exact absurd h0 (by simp)

/-- C4 witness: a submission that throws "boom" yields exactly one
"failed" report with the truncated message, and `processOne` still
returns normally. -/
theorem c4_terminal_report_best_effort_witness :
    (processOne
        ⟨Except.ok (), Except.ok (), Except.ok (), Except.error "boom",
          Except.ok (), Except.error "Webhook failed: 500 down"⟩
        "rHOT" ⟨"r1", "rDEST", "10", none, "s1"⟩).2 = Except.ok ()
  ∧ (webhookEvents (processOne
        ⟨Except.ok (), Except.ok (), Except.ok (), Except.error "boom",
          Except.ok (), Except.error "Webhook failed: 500 down"⟩
        "rHOT" ⟨"r1", "rDEST", "10", none, "s1"⟩).1).filter (isStatus "failed") =
      [⟨"r1", "failed", none, some (jsSlice (errString "boom") 500), "s1"⟩] :=
  ⟨(c4_terminal_report_best_effort
      ⟨Except.ok (), Except.ok (), Except.ok (), Except.error "boom",
        Except.ok (), Except.error "Webhook failed: 500 down"⟩
      "rHOT" ⟨"r1", "rDEST", "10", none, "s1"⟩).1,
   (c4_terminal_report_best_effort
      ⟨Except.ok (), Except.ok (), Except.ok (), Except.error "boom",
        Except.ok (), Except.error "Webhook failed: 500 down"⟩
      "rHOT" ⟨"r1", "rDEST", "10", none, "s1"⟩).2.2.1 "boom" rfl⟩

/-- C5: every `processOne` trace begins with exactly one increment of
the in-flight counter (before any webhook post) and ends with exactly
one decrement, so under sequential execution the counter returns to its
pre-dispatch value whatever the outcome. -/
theorem c5_inflight_counter (env : Env) (w : String) (row : Row) (n : Int) :
    ((processOne env w row).1).head? = some Event.incr
  ∧ ((processOne env w row).1).getLast? = some Event.decr
  ∧ ((processOne env w row).1).countP isIncr = 1
  ∧ ((processOne env w row).1).countP isDecr = 1
  ∧ runCounter n (processOne env w row).1 = n := by
  have hnc := runAttempt_no_counter env w row
  rw [processOne_eq]
  cases hra : runAttempt env w row with
  | mk evs eo =>
    rw [hra] at hnc
    cases eo with
    | none => exact trace_counter_facts evs n hnc
    | some err =>
      have h2 : (evs ++ [Event.webhook
          ⟨row.id, "failed", none, some (jsSlice (errString err) 500),
            row.webhook_secret⟩]).all (fun e => !isCounterEvent e) = true := by
        simp only [List.all_append, Bool.and_eq_true]
        exact ⟨hnc, rfl⟩
      exact trace_counter_facts _ n h2

/-! ## C6: the poll cycle -/

/-- Closed form of the dispatch loop: it dispatches the longest head
segment of the fetched rows that keeps the in-flight count below the
cap, incrementing the count once per dispatched row. -/
theorem dispatchLoop_eq (cap : Int) (rows : List Row) : ∀ n : Int,
    dispatchLoop cap n rows =
      (rows.take (cap - n).toNat, n + ((cap - n).toNat ⊓ rows.length)) := by
  induction rows with
  | nil =>
    intro n
    simp [dispatchLoop]
  | cons r rs ih =>
    intro n
    by_cases hn : n ≥ cap
    · have h0 : (cap - n).toNat = 0 := by omega
      simp [dispatchLoop, if_pos hn, h0]
    · have h1 : (cap - n).toNat = (cap - (n + 1)).toNat + 1 := by omega
      simp only [dispatchLoop, if_neg hn, ih (n + 1), h1, List.take_succ_cons,
        List.length_cons, Nat.succ_min_succ, Prod.mk.injEq]
      refine ⟨trivial, ?_⟩
      push_cast
      omega

/-- C6: one poll cycle reconnects exactly when no session exists or the
session is disconnected; a failed reconnect aborts the cycle with no
fetch; an in-flight count at or above the cap returns before fetching;
otherwise the fetch is issued with limit = cap and the fetched rows are
dispatched in order until the in-flight count reaches the cap. -/
theorem c6_poll_cycle (env : PollEnv) :
    (pollLoop env).connectAttempted = (!env.hasClient || !env.clientConnected)
  ∧ (∀ e, (!env.hasClient || !env.clientConnected) = true →
      env.connect = Except.error e →
      pollLoop env = ⟨true, false, none, [], env.inFlight0⟩)
  ∧ (env.inFlight0 ≥ env.cap →
      (pollLoop env).fetchAttempted = false ∧ (pollLoop env).dispatched = []
    ∧ (pollLoop env).inFlightAfter = env.inFlight0)
  ∧ (((!env.hasClient || !env.clientConnected) = false ∨ env.connect = Except.ok ()) →
      env.inFlight0 < env.cap →
      (pollLoop env).fetchLimit = some env.cap
    ∧ ∀ rows, env.fetch = Except.ok rows →
        (pollLoop env).dispatched = rows.take (env.cap - env.inFlight0).toNat
      ∧ (pollLoop env).inFlightAfter =
          env.inFlight0 + ((env.cap - env.inFlight0).toNat ⊓ rows.length)) := by
  obtain ⟨hc, cc, con, ftc, cap, n0⟩ := env
  dsimp only
  by_cases hneed : (!hc || !cc) = true
  · cases con with
    | error e =>
      refine ⟨?_, ?_, ?_, ?_⟩
      · simp [pollLoop, hneed]
      · intro _ _ _; simp [pollLoop, hneed]
      · intro _; simp [pollLoop, hneed]
      · rintro (h | h)
        · rw [hneed] at h; exact absurd h (by decide)
        · exact absurd h (by simp)
    | ok u =>
      refine ⟨?_, ?_, ?_, ?_⟩
      · by_cases hcap : n0 ≥ cap <;>
          cases ftc <;>
          simp [pollLoop, pollAfterConnect, hneed, hcap]
      · intro e _ habs; exact absurd habs (by simp)
      · intro hcap
        cases ftc <;>
          simp [pollLoop, pollAfterConnect, hneed, hcap]
      · intro _ hlt
        have hcap : ¬(n0 ≥ cap) := not_le.mpr hlt
        constructor
        · cases ftc <;>
            simp [pollLoop, pollAfterConnect, hneed, hcap]
        · intro rows hrows
          subst hrows
          simp [pollLoop, pollAfterConnect, hneed, hcap, dispatchLoop_eq]
  · refine ⟨?_, ?_, ?_, ?_⟩
    · by_cases hcap : n0 ≥ cap <;>
        cases ftc <;>
        simp [pollLoop, pollAfterConnect, hneed, hcap]
    · intro e habs _; rw [habs] at hneed; exact absurd hneed (by simp)
    · intro hcap
      cases ftc <;>
        simp [pollLoop, pollAfterConnect, hneed, hcap]
    · intro _ hlt
      have hcap : ¬(n0 ≥ cap) := not_le.mpr hlt
      constructor
      · cases ftc <;>
          simp [pollLoop, pollAfterConnect, hneed, hcap]
      · intro rows hrows
        subst hrows
        simp [pollLoop, pollAfterConnect, hneed, hcap, dispatchLoop_eq]

/-- C6 witness: a dead session whose reconnect fails aborts the cycle;
a connected session at the cap skips the fetch; a connected session
below the cap (in-flight 0 of cap 2) fetches with limit 2 and
dispatches only the first two of three fetched rows. -/
theorem c6_poll_cycle_witness :
    pollLoop ⟨false, false, Except.error "down", Except.ok [], 2, 0⟩ =
      ⟨true, false, none, [], 0⟩
  ∧ ((pollLoop ⟨true, true, Except.ok (), Except.ok [], 2, 2⟩).fetchAttempted = false
    ∧ (pollLoop ⟨true, true, Except.ok (), Except.ok [], 2, 2⟩).dispatched = []
    ∧ (pollLoop ⟨true, true, Except.ok (), Except.ok [], 2, 2⟩).inFlightAfter = 2)
  ∧ (pollLoop ⟨true, true, Except.ok (),
      Except.ok [⟨"q1", "rD1", "1", none, "t1"⟩, ⟨"q2", "rD2", "2", none, "t2"⟩,
        ⟨"q3", "rD3", "3", none, "t3"⟩], 2, 0⟩).fetchLimit = some 2
  ∧ ((pollLoop ⟨true, true, Except.ok (),
      Except.ok [⟨"q1", "rD1", "1", none, "t1"⟩, ⟨"q2", "rD2", "2", none, "t2"⟩,
        ⟨"q3", "rD3", "3", none, "t3"⟩], 2, 0⟩).dispatched =
      ([⟨"q1", "rD1", "1", none, "t1"⟩, ⟨"q2", "rD2", "2", none, "t2"⟩,
        ⟨"q3", "rD3", "3", none, "t3"⟩] : List Row).take ((2 : Int) - 0).toNat
    ∧ (pollLoop ⟨true, true, Except.ok (),
      Except.ok [⟨"q1", "rD1", "1", none, "t1"⟩, ⟨"q2", "rD2", "2", none, "t2"⟩,
        ⟨"q3", "rD3", "3", none, "t3"⟩], 2, 0⟩).inFlightAfter =
      0 + (((2 : Int) - 0).toNat ⊓
        ([⟨"q1", "rD1", "1", none, "t1"⟩, ⟨"q2", "rD2", "2", none, "t2"⟩,
          ⟨"q3", "rD3", "3", none, "t3"⟩] : List Row).length)) :=
  ⟨(c6_poll_cycle ⟨false, false, Except.error "down", Except.ok [], 2, 0⟩).2.1
      "down" (by decide) rfl,
   (c6_poll_cycle ⟨true, true, Except.ok (), Except.ok [], 2, 2⟩).2.2.1 (by decide),
   ((c6_poll_cycle ⟨true, true, Except.ok (),
      Except.ok [⟨"q1", "rD1", "1", none, "t1"⟩, ⟨"q2", "rD2", "2", none, "t2"⟩,
        ⟨"q3", "rD3", "3", none, "t3"⟩], 2, 0⟩).2.2.2
      (Or.inl (by decide)) (by decide)).1,
   ((c6_poll_cycle ⟨true, true, Except.ok (),
      Except.ok [⟨"q1", "rD1", "1", none, "t1"⟩, ⟨"q2", "rD2", "2", none, "t2"⟩,
        ⟨"q3", "rD3", "3", none, "t3"⟩], 2, 0⟩).2.2.2
      (Or.inl (by decide)) (by decide)).2 _ rfl⟩

/-! ## C7: connection fallback -/

/-- Endpoints that fail to connect are attempted and skipped in order;
the list of attempts grows by each failing url. -/
theorem connectClient_first_ok (f : String → Bool) (url : String)
    (rest : List String) (hurl : f url = true) :
    ∀ pre : List String, (∀ u ∈ pre, f u = false) →
      connectClient f (pre ++ url :: rest) = (pre ++ [url], Except.ok url) := by
  intro pre
  induction pre with
  | nil =>
    intro _
    simp [connectClient, hurl]
  | cons p ps ih =>
    intro h
    have hp : f p = false := h p (by simp)
    have hps : ∀ u ∈ ps, f u = false := fun u hu => h u (by simp [hu])
    simp [connectClient, hp, ih hps]

/-- When every url fails to connect, all of them are attempted and the
`No XRPL server reachable` error is thrown. -/
theorem connectClient_all_fail (f : String → Bool) :
    ∀ urls : List String, (∀ u ∈ urls, f u = false) →
      connectClient f urls = (urls, Except.error "No XRPL server reachable") := by
  intro urls
  induction urls with
  | nil => intro _; rfl
  | cons u us ih =>
    intro h
    have hu : f u = false := h u (by simp)
    have hus : ∀ v ∈ us, f v = false := fun v hv => h v (by simp [hv])
    simp [connectClient, hu, ih hus]

/-- C7: `connectClient` tries the endpoints in order and stops at the
first url that connects, storing that session and attempting nothing
further; if every endpoint fails it throws "No XRPL server reachable"
after attempting them all. -/
theorem c7_connect_order (f : String → Bool) (pre : List String)
    (url : String) (rest : List String) (urls : List String)
    (hpre : ∀ u ∈ pre, f u = false) (hurl : f url = true)
    (hall : ∀ u ∈ urls, f u = false) :
    connectClient f (pre ++ url :: rest) = (pre ++ [url], Except.ok url)
  ∧ connectClient f urls = (urls, Except.error "No XRPL server reachable") :=
  ⟨connectClient_first_ok f url rest hurl pre hpre,
   connectClient_all_fail f urls hall⟩

/-- C7 witness: with only the second of three endpoints reachable, the
first two are attempted and the third is not; with none of two other
endpoints reachable, the error is thrown after both. -/
theorem c7_connect_order_witness :
    connectClient (fun u => u == "wss://b") (["wss://a"] ++ "wss://b" :: ["wss://c"]) =
      (["wss://a"] ++ ["wss://b"], Except.ok "wss://b")
  ∧ connectClient (fun u => u == "wss://b") ["wss://x", "wss://y"] =
      (["wss://x", "wss://y"], Except.error "No XRPL server reachable") :=
  c7_connect_order (fun u => u == "wss://b") ["wss://a"] "wss://b" ["wss://c"]
    ["wss://x", "wss://y"] (by decide) (by decide) (by decide)

/-! ## C8: the queue fetch -/

/-- C8: `fetchQueued` issues one GET against
`/rest/v1/payout_requests` selecting queued XRP rows ascending by
`requested_at` capped at `limit`, with the service-role key in both the
`apikey` and bearer `Authorization` headers; a non-2xx response throws
an error carrying the HTTP status and body, and a 2xx response yields
the parsed row array. -/
theorem c8_fetch_queued (base key : String) (limit : Int)
    (resp : BackendResponse) :
    (fetchQueued base key limit resp).1 =
      ⟨"GET",
        base ++ "/rest/v1/payout_requests?status=eq.queued&chain=eq.XRP&order=requested_at.asc&limit=" ++
          toString limit,
        [("apikey", key), ("Authorization", "Bearer " ++ key),
         ("Content-Type", "application/json")]⟩
  ∧ (respOk resp = true →
      (fetchQueued base key limit resp).2 = Except.ok resp.rows)
  ∧ (respOk resp = false →
      (fetchQueued base key limit resp).2 =
        Except.error ("Fetch queued failed: " ++ toString resp.status ++ " " ++
          resp.body)) := by
  cases hc : respOk resp <;>
    simp [fetchQueued, supabaseHeaders, hc]

/-- C8 witness: a 200 response yields the rows; a 500 response with
body "oops" throws the status-and-body error. -/
theorem c8_fetch_queued_witness :
    (fetchQueued "https://sb.example" "KEY" 2
        ⟨200, "", [⟨"q1", "rD1", "1", none, "t1"⟩]⟩).1 =
      ⟨"GET",
        "https://sb.example" ++
          "/rest/v1/payout_requests?status=eq.queued&chain=eq.XRP&order=requested_at.asc&limit=" ++
          toString (2 : Int),
        [("apikey", "KEY"), ("Authorization", "Bearer " ++ "KEY"),
         ("Content-Type", "application/json")]⟩
  ∧ (fetchQueued "https://sb.example" "KEY" 2
        ⟨200, "", [⟨"q1", "rD1", "1", none, "t1"⟩]⟩).2 =
      Except.ok [⟨"q1", "rD1", "1", none, "t1"⟩]
  ∧ (fetchQueued "https://sb.example" "KEY" 2 ⟨500, "oops", []⟩).2 =
      Except.error ("Fetch queued failed: " ++ toString (500 : Nat) ++ " " ++ "oops") :=
  ⟨(c8_fetch_queued "https://sb.example" "KEY" 2
      ⟨200, "", [⟨"q1", "rD1", "1", none, "t1"⟩]⟩).1,
   (c8_fetch_queued "https://sb.example" "KEY" 2
      ⟨200, "", [⟨"q1", "rD1", "1", none, "t1"⟩]⟩).2.1 rfl,
   (c8_fetch_queued "https://sb.example" "KEY" 2 ⟨500, "oops", []⟩).2.2 rfl⟩

/-! ## C9: the control endpoint -/

/-- The expected `Bearer <token>` comparison string is never empty. -/
theorem bearerString_ne_empty (t : String) : ¬("Bearer " ++ t) = "" := by
  intro h
  have hl := congrArg String.length h
  rw [String.length_append] at hl
  have h7 : ("Bearer " : String).length = 7 := rfl
  have h0 : ("" : String).length = 0 := rfl
  rw [h7, h0] at hl
  omega

/-- C9: with a configured (non-empty) control token, `POST /process`
answers 401 to a missing Authorization header and to any header other
than the exact `Bearer <token>` string, and answers the immediate
acknowledgement while scheduling one poll cycle on an exact match; with
no token configured every request is accepted. -/
theorem c9_process_control (t : String) (ht : ¬t = "") :
    (∀ a, ¬a = "Bearer " ++ t →
      processHandler (some t) (some a) = ⟨401, false, false, false⟩)
  ∧ processHandler (some t) none = ⟨401, false, false, false⟩
  ∧ processHandler (some t) (some ("Bearer " ++ t)) = ⟨200, true, true, true⟩
  ∧ (∀ a, processHandler none a = ⟨200, true, true, true⟩) := by
  refine ⟨?_, ?_, ?_, fun a => rfl⟩
  · intro a ha
    by_cases haa : a = ""
    · subst haa
      simp [processHandler, ht, jsOrDefault]
      exact fun h => bearerString_ne_empty t h.symm
    · simp [processHandler, ht, jsOrDefault, haa, ha]
  · simp [processHandler, ht, jsOrDefault]
    exact fun h => bearerString_ne_empty t h.symm
  · simp [processHandler, ht, jsOrDefault, bearerString_ne_empty t]

/-- C9 witness: token "secret": wrong header, missing header, exact
header, and the ungated configuration. -/
theorem c9_process_control_witness :
    processHandler (some "secret") (some "Bearer nope") = ⟨401, false, false, false⟩
  ∧ processHandler (some "secret") none = ⟨401, false, false, false⟩
  ∧ processHandler (some "secret") (some ("Bearer " ++ "secret")) =
      ⟨200, true, true, true⟩
  ∧ processHandler none (some "anything") = ⟨200, true, true, true⟩ :=
  ⟨(c9_process_control "secret" (by decide)).1 "Bearer nope" (by decide),
   (c9_process_control "secret" (by decide)).2.1,
   (c9_process_control "secret" (by decide)).2.2.1,
   (c9_process_control "secret" (by decide)).2.2.2 (some "anything")⟩

/-! ## C10: the endpoint-list fallback never reaches the defaults -/

/-- C10: with neither `XRPL_SERVERS` nor `XRPL_SERVER` set,
`WS_DEFAULTS` evaluates to the empty list (the `[XRPL_SERVER].filter(Boolean)`
operand is `[]`, an array and hence truthy, so the hardcoded public
endpoints are never reached), and `connectClient` over that list throws
"No XRPL server reachable" without attempting a single connection. -/
theorem c10_unset_env_empty_endpoints (f : String → Bool) :
    wsDefaults none none = []
  ∧ connectClient f (wsDefaults none none) =
      ([], Except.error "No XRPL server reachable") :=
  ⟨rfl, rfl⟩

end ExternalSigner
